import Mathlib

/-!
Shallow embedding of `include/swift/AST/Stmt.h` (the statement AST of a
compiler front end).

Modelling conventions:
* `SourceLoc` wraps an optional buffer position; `none` is the invalid
  location (`isValid` / `isInvalid` mirror the C++ queries).
* Pointers to nodes of the external families (`Expr*`, `Decl*`, `Pattern*`,
  `PatternBindingDecl*`, and inter-statement pointers `Stmt*`, `CaseStmt*`,
  `LabeledStmt*`, `BraceStmt*`) are modelled as opaque numeric references;
  pointer equality is reference equality.  A pointer field that can hold
  null (or that a query tests against null) is modelled as `Option _`.
* Each C++ class becomes a record carrying the base-class data
  (`StmtBase`, the `Kind`/`Implicit` bit-fields of `Stmt`) plus its own
  fields; member functions become Lean functions on the record.
* A C++ `assert` that guards a programming contract is modelled by an
  `Except ContractViolation _` result: `.error` is the fatal assertion
  failure.  A member function with no assertion is a total function.
* A node member the C++ constructor leaves uninitialized is modelled by an
  extra constructor argument (named `junk`) standing for the indeterminate
  prior contents of that memory.
-/

namespace SwiftAST

/-- A source location: an optional position in the source buffer.
`none` models the invalid (absent) `SourceLoc`. -/
structure SourceLoc where
  pos : Option Nat
deriving DecidableEq

/-- `SourceLoc::isValid`. -/
def SourceLoc.isValid (l : SourceLoc) : Bool := l.pos.isSome

/-- `SourceLoc::isInvalid`. -/
def SourceLoc.isInvalid (l : SourceLoc) : Bool := l.pos.isNone

/-- Source-buffer order on valid locations: true when both locations are
valid and the first does not come after the second. -/
def SourceLoc.leB (a b : SourceLoc) : Bool :=
  match a.pos, b.pos with
  | some x, some y => decide (x ≤ y)
  | _, _ => false

/-- `SourceRange`: a pair of start and end locations. -/
structure SourceRange where
  Start : SourceLoc
  End : SourceLoc
deriving DecidableEq

/-- `Identifier`: an interned name; modelled by its string. -/
structure Identifier where
  str : String
deriving DecidableEq

/-- `Identifier::empty`. -/
def Identifier.empty (i : Identifier) : Bool := i.str.isEmpty

/-- Opaque reference standing for an `Expr*`. -/
structure ExprRef where
  id : Nat
deriving DecidableEq

/-- Opaque reference standing for a `Decl*`. -/
structure DeclRef where
  id : Nat
deriving DecidableEq

/-- Opaque reference standing for a `Pattern*`. -/
structure PatternRef where
  id : Nat
deriving DecidableEq

/-- Opaque reference standing for a `PatternBindingDecl*`. -/
structure PatternBindingDeclRef where
  id : Nat
deriving DecidableEq

/-- Opaque reference standing for a `Stmt*` child pointer. -/
structure StmtRef where
  id : Nat
deriving DecidableEq

/-- Opaque reference standing for a `CaseStmt*` pointer. -/
structure CaseRef where
  id : Nat
deriving DecidableEq

/-- Opaque reference standing for a `LabeledStmt*` pointer. -/
structure LabeledRef where
  id : Nat
deriving DecidableEq

/-- Opaque reference standing for a `BraceStmt*` pointer. -/
structure BraceRef where
  id : Nat
deriving DecidableEq

/-- `ASTNode`: a pointer union of expression, statement and declaration. -/
inductive ASTNode where
  | expr (e : ExprRef)
  | stmt (s : StmtRef)
  | decl (d : DeclRef)
deriving DecidableEq

/-- `StmtCondition = PointerUnion<PatternBindingDecl*, Expr*>`: condition of
an `if` or `while`. -/
inductive StmtCondition where
  | binding (p : PatternBindingDeclRef)
  | expr (e : ExprRef)
deriving DecidableEq

/-- `StmtKind`: the closed tag enumeration of statement variants, in the
order the classes are declared in `Stmt.h`. -/
inductive StmtKind where
  | Brace
  | Return
  | If
  | IfConfig
  | While
  | DoWhile
  | For
  | ForEach
  | Switch
  | Case
  | Break
  | Continue
  | Fallthrough
deriving DecidableEq

/-- Modelled from the spec: the numeric tag values assigned by
`StmtNodes.def`, which is not under `src/`.  The spec requires every
concrete variant to register a distinct tag and the label-bearing
statements (the `LabeledStmt` subclasses `While`, `DoWhile`, `For`,
`ForEach`, `Switch` of `Stmt.h`) to occupy one contiguous sub-range; tags
follow the declaration order of the classes in `Stmt.h`. -/
def StmtKind.toTag : StmtKind → Nat
  | .Brace => 0
  | .Return => 1
  | .If => 2
  | .IfConfig => 3
  | .While => 4
  | .DoWhile => 5
  | .For => 6
  | .ForEach => 7
  | .Switch => 8
  | .Case => 9
  | .Break => 10
  | .Continue => 11
  | .Fallthrough => 12

/-- Modelled from the spec: `StmtKind::First_LabeledStmt` from
`StmtNodes.def` (the first tag of the contiguous labeled range). -/
def StmtKind.firstLabeledTag : Nat := StmtKind.While.toTag

/-- Modelled from the spec: `StmtKind::Last_LabeledStmt` from
`StmtNodes.def` (the last tag of the contiguous labeled range). -/
def StmtKind.lastLabeledTag : Nat := StmtKind.Switch.toTag

/-- A fatal programming-contract violation (a failed C++ `assert`). -/
structure ContractViolation where
  msg : String
deriving DecidableEq

/-- The data of the base class `Stmt`: the `Kind` and `Implicit`
bit-fields. -/
structure StmtBase where
  Kind : StmtKind
  Implicit : Bool
deriving DecidableEq

/-- The constructor `Stmt(StmtKind kind, bool implicit)`. -/
def mkStmtBase (kind : StmtKind) (implicit : Bool) : StmtBase :=
  { Kind := kind, Implicit := implicit }

/-- `Stmt::getKind`. -/
def StmtBase.getKind (s : StmtBase) : StmtKind := s.Kind

/-- `Stmt::isImplicit`. -/
def StmtBase.isImplicit (s : StmtBase) : Bool := s.Implicit

/-- `Stmt::getDefaultImplicitFlag`: the given value for the implicit flag
if present, otherwise true iff the keyword location is invalid. -/
def getDefaultImplicitFlag (implicit : Option Bool) (keyLoc : SourceLoc) : Bool :=
  match implicit with
  | some b => b
  | none => keyLoc.isInvalid

/-- `LabeledStmtInfo`: optional label name and location of a labeled
statement. -/
structure LabeledStmtInfo where
  Name : Identifier
  Loc : SourceLoc
deriving DecidableEq

/-- `LabeledStmtInfo::operator bool`: evaluates to true if set, i.e. the
name is non-empty. -/
def LabeledStmtInfo.toBool (i : LabeledStmtInfo) : Bool := !i.Name.empty

/-- The data of the abstract class `LabeledStmt`: base data plus the
label info. -/
structure LabeledBase where
  base : StmtBase
  LabelInfo : LabeledStmtInfo
deriving DecidableEq

/-- The constructor `LabeledStmt(StmtKind, bool, LabeledStmtInfo)`. -/
def LabeledBase.ctor (kind : StmtKind) (implicit : Bool)
    (labelInfo : LabeledStmtInfo) : LabeledBase :=
  { base := mkStmtBase kind implicit, LabelInfo := labelInfo }

/-- `LabeledStmt::getLabelInfo`. -/
def LabeledBase.getLabelInfo (l : LabeledBase) : LabeledStmtInfo := l.LabelInfo

/-- `LabeledStmt::setLabelInfo`. -/
def LabeledBase.setLabelInfo (l : LabeledBase) (i : LabeledStmtInfo) : LabeledBase :=
  { l with LabelInfo := i }

/-- `LabeledStmt::getLabelLocOrKeywordLoc`. -/
def LabeledBase.getLabelLocOrKeywordLoc (l : LabeledBase) (L : SourceLoc) : SourceLoc :=
  if l.LabelInfo.toBool then l.LabelInfo.Loc else L

/-- `LabeledStmt::classof`: a two-comparison range check on the kind
tag. -/
def LabeledStmt.classof (s : StmtBase) : Bool :=
  decide (StmtKind.firstLabeledTag ≤ s.getKind.toTag) &&
    decide (s.getKind.toTag ≤ StmtKind.lastLabeledTag)

/-- `BraceStmt`: a brace-enclosed sequence of expressions, statements or
declarations.  `elements` models the trailing contiguous storage placed
right after the fixed header. -/
structure BraceStmt where
  base : StmtBase
  NumElements : Nat
  IsConfigBlock : Bool
  IsInactiveConfigBlock : Bool
  LBLoc : SourceLoc
  RBLoc : SourceLoc
  elements : List ASTNode
deriving DecidableEq

/-- Modelled from the spec: `BraceStmt::create` (its body lives in
`Stmt.cpp`, which is not under `src/`).  Per the construction contract,
it allocates header plus trailing storage in one block, in-place
constructs each supplied child into the trailing region, and records the
count; the implicit flag defaults from the left-brace location; the two
config-block flags start unset. -/
def BraceStmt.create (lbloc : SourceLoc) (elems : List ASTNode)
    (rbloc : SourceLoc) (implicit : Option Bool) : BraceStmt :=
  { base := mkStmtBase StmtKind.Brace (getDefaultImplicitFlag implicit lbloc)
    NumElements := elems.length
    IsConfigBlock := false
    IsInactiveConfigBlock := false
    LBLoc := lbloc
    RBLoc := rbloc
    elements := elems }

/-- `BraceStmt::getElements`: the `NumElements` entries of the trailing
storage. -/
def BraceStmt.getElements (b : BraceStmt) : List ASTNode :=
  b.elements.take b.NumElements

/-- `BraceStmt::getSourceRange`. -/
def BraceStmt.getSourceRange (b : BraceStmt) : SourceRange :=
  { Start := b.LBLoc, End := b.RBLoc }

/-- `BraceStmt::markAsConfigBlock`. -/
def BraceStmt.markAsConfigBlock (b : BraceStmt) : BraceStmt :=
  { b with IsConfigBlock := true }

/-- `BraceStmt::isConfigBlock`. -/
def BraceStmt.isConfigBlock (b : BraceStmt) : Bool := b.IsConfigBlock

/-- `BraceStmt::markAsInactiveConfigBlock`. -/
def BraceStmt.markAsInactiveConfigBlock (b : BraceStmt) : BraceStmt :=
  { b with IsInactiveConfigBlock := true }

/-- `BraceStmt::isInactiveConfigBlock`. -/
def BraceStmt.isInactiveConfigBlock (b : BraceStmt) : Bool :=
  b.IsInactiveConfigBlock

/-- `BraceStmt::classof`. -/
def BraceStmt.classof (s : StmtBase) : Bool :=
  decide (s.getKind = StmtKind.Brace)

/-- `ReturnStmt`: a return statement with an optional result
expression (`Result` is a possibly-null `Expr*`). -/
structure ReturnStmt where
  base : StmtBase
  ReturnLoc : SourceLoc
  Result : Option ExprRef
deriving DecidableEq

/-- The constructor `ReturnStmt(SourceLoc, Expr*, Optional<bool>)`. -/
def ReturnStmt.ctor (returnLoc : SourceLoc) (result : Option ExprRef)
    (implicit : Option Bool) : ReturnStmt :=
  { base := mkStmtBase StmtKind.Return (getDefaultImplicitFlag implicit returnLoc)
    ReturnLoc := returnLoc
    Result := result }

/-- `ReturnStmt::hasResult`. -/
def ReturnStmt.hasResult (r : ReturnStmt) : Bool := r.Result.isSome

/-- `ReturnStmt::setResult`. -/
def ReturnStmt.setResult (r : ReturnStmt) (e : ExprRef) : ReturnStmt :=
  { r with Result := some e }

/-- `IfStmt`: if/then/else; `Else` is null when no else clause was
written. -/
structure IfStmt where
  base : StmtBase
  IfLoc : SourceLoc
  ElseLoc : SourceLoc
  Cond : StmtCondition
  Then : StmtRef
  Else : Option StmtRef
deriving DecidableEq

/-- The constructor `IfStmt(...)`. -/
def IfStmt.ctor (ifLoc : SourceLoc) (cond : StmtCondition) (thenS : StmtRef)
    (elseLoc : SourceLoc) (elseS : Option StmtRef)
    (implicit : Option Bool) : IfStmt :=
  { base := mkStmtBase StmtKind.If (getDefaultImplicitFlag implicit ifLoc)
    IfLoc := ifLoc
    ElseLoc := elseLoc
    Cond := cond
    Then := thenS
    Else := elseS }

/-- `IfStmt::setCond`. -/
def IfStmt.setCond (i : IfStmt) (e : StmtCondition) : IfStmt :=
  { i with Cond := e }

/-- `IfStmt::setThenStmt`. -/
def IfStmt.setThenStmt (i : IfStmt) (s : StmtRef) : IfStmt :=
  { i with Then := s }

/-- `IfStmt::setElseStmt`. -/
def IfStmt.setElseStmt (i : IfStmt) (s : Option StmtRef) : IfStmt :=
  { i with Else := s }

/-- `IfConfigStmt`: the statement-side representation of conditional
compilation blocks; constructed with an explicit `implicit = false` and a
pre-computed active-branch flag. -/
structure IfConfigStmt where
  base : StmtBase
  IfBlockIsActive : Bool
  IfLoc : SourceLoc
  ElseLoc : SourceLoc
  EndLoc : SourceLoc
  Cond : Option ExprRef
  Then : Option StmtRef
  Else : Option StmtRef
deriving DecidableEq

/-- The constructor `IfConfigStmt(...)`; the base is built with
`implicit = false`, not from an optional flag. -/
def IfConfigStmt.ctor (ifBlockIsActive : Bool) (ifLoc : SourceLoc)
    (cond : Option ExprRef) (thenS : Option StmtRef) (elseLoc : SourceLoc)
    (elseS : Option StmtRef) (endLoc : SourceLoc) : IfConfigStmt :=
  { base := mkStmtBase StmtKind.IfConfig false
    IfBlockIsActive := ifBlockIsActive
    IfLoc := ifLoc
    ElseLoc := elseLoc
    EndLoc := endLoc
    Cond := cond
    Then := thenS
    Else := elseS }

/-- `IfConfigStmt::getActiveStmt`. -/
def IfConfigStmt.getActiveStmt (i : IfConfigStmt) : Option StmtRef :=
  if i.IfBlockIsActive then i.Then else i.Else

/-- `IfConfigStmt::setThenStmt`. -/
def IfConfigStmt.setThenStmt (i : IfConfigStmt) (s : Option StmtRef) : IfConfigStmt :=
  { i with Then := s }

/-- `IfConfigStmt::setElseStmt`. -/
def IfConfigStmt.setElseStmt (i : IfConfigStmt) (s : Option StmtRef) : IfConfigStmt :=
  { i with Else := s }

/-- `IfConfigStmt::setCond`. -/
def IfConfigStmt.setCond (i : IfConfigStmt) (e : Option ExprRef) : IfConfigStmt :=
  { i with Cond := e }

/-- `WhileStmt`: a while loop. -/
structure WhileStmt where
  lbase : LabeledBase
  WhileLoc : SourceLoc
  Cond : StmtCondition
  Body : StmtRef
deriving DecidableEq

/-- The constructor `WhileStmt(...)`. -/
def WhileStmt.ctor (labelInfo : LabeledStmtInfo) (whileLoc : SourceLoc)
    (cond : StmtCondition) (body : StmtRef) (implicit : Option Bool) : WhileStmt :=
  { lbase := LabeledBase.ctor StmtKind.While
      (getDefaultImplicitFlag implicit whileLoc) labelInfo
    WhileLoc := whileLoc
    Cond := cond
    Body := body }

/-- `WhileStmt::setCond`. -/
def WhileStmt.setCond (w : WhileStmt) (e : StmtCondition) : WhileStmt :=
  { w with Cond := e }

/-- `WhileStmt::setBody`. -/
def WhileStmt.setBody (w : WhileStmt) (s : StmtRef) : WhileStmt :=
  { w with Body := s }

/-- inherited `LabeledStmt::setLabelInfo` on a `WhileStmt`. -/
def WhileStmt.setLabelInfo (w : WhileStmt) (i : LabeledStmtInfo) : WhileStmt :=
  { w with lbase := w.lbase.setLabelInfo i }

/-- `DoWhileStmt`: a do/while loop (boolean-expression condition only). -/
structure DoWhileStmt where
  lbase : LabeledBase
  DoLoc : SourceLoc
  WhileLoc : SourceLoc
  Body : StmtRef
  Cond : ExprRef
deriving DecidableEq

/-- The constructor `DoWhileStmt(...)`. -/
def DoWhileStmt.ctor (labelInfo : LabeledStmtInfo) (doLoc : SourceLoc)
    (cond : ExprRef) (whileLoc : SourceLoc) (body : StmtRef)
    (implicit : Option Bool) : DoWhileStmt :=
  { lbase := LabeledBase.ctor StmtKind.DoWhile
      (getDefaultImplicitFlag implicit doLoc) labelInfo
    DoLoc := doLoc
    WhileLoc := whileLoc
    Body := body
    Cond := cond }

/-- `DoWhileStmt::setBody`. -/
def DoWhileStmt.setBody (d : DoWhileStmt) (s : StmtRef) : DoWhileStmt :=
  { d with Body := s }

/-- `DoWhileStmt::setCond`. -/
def DoWhileStmt.setCond (d : DoWhileStmt) (e : ExprRef) : DoWhileStmt :=
  { d with Cond := e }

/-- `ForStmt`: a C-style for loop; initializer, condition and increment
are all optional (`NullablePtr<Expr>`). -/
structure ForStmt where
  lbase : LabeledBase
  ForLoc : SourceLoc
  Semi1Loc : SourceLoc
  Semi2Loc : SourceLoc
  Initializer : Option ExprRef
  InitializerVarDecls : List DeclRef
  Cond : Option ExprRef
  Increment : Option ExprRef
  Body : StmtRef
deriving DecidableEq

/-- The constructor `ForStmt(...)`. -/
def ForStmt.ctor (labelInfo : LabeledStmtInfo) (forLoc : SourceLoc)
    (initializer : Option ExprRef) (initializerVarDecls : List DeclRef)
    (semi1Loc : SourceLoc) (cond : Option ExprRef) (semi2Loc : SourceLoc)
    (increment : Option ExprRef) (body : StmtRef)
    (implicit : Option Bool) : ForStmt :=
  { lbase := LabeledBase.ctor StmtKind.For
      (getDefaultImplicitFlag implicit forLoc) labelInfo
    ForLoc := forLoc
    Semi1Loc := semi1Loc
    Semi2Loc := semi2Loc
    Initializer := initializer
    InitializerVarDecls := initializerVarDecls
    Cond := cond
    Increment := increment
    Body := body }

/-- `ForStmt::setInitializer`. -/
def ForStmt.setInitializer (f : ForStmt) (v : ExprRef) : ForStmt :=
  { f with Initializer := some v }

/-- `ForStmt::setInitializerVarDecls`. -/
def ForStmt.setInitializerVarDecls (f : ForStmt) (d : List DeclRef) : ForStmt :=
  { f with InitializerVarDecls := d }

/-- `ForStmt::setCond`. -/
def ForStmt.setCond (f : ForStmt) (c : Option ExprRef) : ForStmt :=
  { f with Cond := c }

/-- `ForStmt::setIncrement`. -/
def ForStmt.setIncrement (f : ForStmt) (v : ExprRef) : ForStmt :=
  { f with Increment := some v }

/-- `ForStmt::setBody`. -/
def ForStmt.setBody (f : ForStmt) (s : StmtRef) : ForStmt :=
  { f with Body := s }

/-- `ForEachStmt`: iteration over a sequence; `Generator` and
`GeneratorNext` are populated only by later analysis and start null. -/
structure ForEachStmt where
  lbase : LabeledBase
  ForLoc : SourceLoc
  InLoc : SourceLoc
  Pat : PatternRef
  Sequence : ExprRef
  Body : BraceRef
  Generator : Option PatternBindingDeclRef
  GeneratorNext : Option ExprRef
deriving DecidableEq

/-- The constructor `ForEachStmt(...)`; the generator fields start as
null (member initializers `= nullptr`). -/
def ForEachStmt.ctor (labelInfo : LabeledStmtInfo) (forLoc : SourceLoc)
    (pat : PatternRef) (inLoc : SourceLoc) (sequence : ExprRef)
    (body : BraceRef) (implicit : Option Bool) : ForEachStmt :=
  { lbase := LabeledBase.ctor StmtKind.ForEach
      (getDefaultImplicitFlag implicit forLoc) labelInfo
    ForLoc := forLoc
    InLoc := inLoc
    Pat := pat
    Sequence := sequence
    Body := body
    Generator := none
    GeneratorNext := none }

/-- `ForEachStmt::setPattern`. -/
def ForEachStmt.setPattern (f : ForEachStmt) (p : PatternRef) : ForEachStmt :=
  { f with Pat := p }

/-- `ForEachStmt::setSequence`. -/
def ForEachStmt.setSequence (f : ForEachStmt) (s : ExprRef) : ForEachStmt :=
  { f with Sequence := s }

/-- `ForEachStmt::setGenerator`. -/
def ForEachStmt.setGenerator (f : ForEachStmt) (g : PatternBindingDeclRef) : ForEachStmt :=
  { f with Generator := some g }

/-- `ForEachStmt::setGeneratorNext`. -/
def ForEachStmt.setGeneratorNext (f : ForEachStmt) (e : ExprRef) : ForEachStmt :=
  { f with GeneratorNext := some e }

/-- `ForEachStmt::setBody`. -/
def ForEachStmt.setBody (f : ForEachStmt) (b : BraceRef) : ForEachStmt :=
  { f with Body := b }

/-- `CaseLabelItem`: a pattern, an optional guard expression and the
is-default flag (the guard pointer and the flag are packed in a
`PointerIntPair`). -/
structure CaseLabelItem where
  CasePattern : PatternRef
  WhereLoc : SourceLoc
  GuardExpr : Option ExprRef
  IsDefault : Bool
deriving DecidableEq

/-- The constructor `CaseLabelItem(bool, Pattern*, SourceLoc, Expr*)`. -/
def CaseLabelItem.ctor (isDefault : Bool) (casePattern : PatternRef)
    (whereLoc : SourceLoc) (guardExpr : Option ExprRef) : CaseLabelItem :=
  { CasePattern := casePattern
    WhereLoc := whereLoc
    GuardExpr := guardExpr
    IsDefault := isDefault }

/-- `CaseLabelItem::isDefault`: true if this is syntactically a default
label. -/
def CaseLabelItem.isDefault (i : CaseLabelItem) : Bool := i.IsDefault

/-- `CaseLabelItem::getGuardExpr`. -/
def CaseLabelItem.getGuardExpr (i : CaseLabelItem) : Option ExprRef := i.GuardExpr

/-- `CaseLabelItem::setGuardExpr`. -/
def CaseLabelItem.setGuardExpr (i : CaseLabelItem) (e : Option ExprRef) : CaseLabelItem :=
  { i with GuardExpr := e }

/-- `CaseLabelItem::setPattern`. -/
def CaseLabelItem.setPattern (i : CaseLabelItem) (p : PatternRef) : CaseLabelItem :=
  { i with CasePattern := p }

/-- `CaseStmt`: a case or default block of a switch; the label items live
in trailing storage (`items`), the body pointer and the has-bound-decls
flag are packed in a `PointerIntPair`. -/
structure CaseStmt where
  base : StmtBase
  CaseLoc : SourceLoc
  ColonLoc : SourceLoc
  Body : StmtRef
  HasBoundDecls : Bool
  NumPatterns : Nat
  items : List CaseLabelItem
deriving DecidableEq

/-- Modelled from the spec: `CaseStmt::create` (its body lives in
`Stmt.cpp`, which is not under `src/`).  Per the construction contract it
allocates header plus trailing storage in one block, in-place constructs
each supplied label item into the trailing region (at least one is
required by contract), and records the count. -/
def CaseStmt.create (caseLoc : SourceLoc) (caseLabelItems : List CaseLabelItem)
    (hasBoundDecls : Bool) (colonLoc : SourceLoc) (body : StmtRef)
    (implicit : Option Bool) : CaseStmt :=
  { base := mkStmtBase StmtKind.Case (getDefaultImplicitFlag implicit caseLoc)
    CaseLoc := caseLoc
    ColonLoc := colonLoc
    Body := body
    HasBoundDecls := hasBoundDecls
    NumPatterns := caseLabelItems.length
    items := caseLabelItems }

/-- `CaseStmt::getCaseLabelItems`: the `NumPatterns` entries of the
trailing storage. -/
def CaseStmt.getCaseLabelItems (c : CaseStmt) : List CaseLabelItem :=
  c.items.take c.NumPatterns

/-- `CaseStmt::getBody`. -/
def CaseStmt.getBody (c : CaseStmt) : StmtRef := c.Body

/-- `CaseStmt::setBody`. -/
def CaseStmt.setBody (c : CaseStmt) (body : StmtRef) : CaseStmt :=
  { c with Body := body }

/-- `CaseStmt::hasBoundDecls`. -/
def CaseStmt.hasBoundDecls (c : CaseStmt) : Bool := c.HasBoundDecls

/-- `CaseStmt::getLoc`. -/
def CaseStmt.getLoc (c : CaseStmt) : SourceLoc := c.CaseLoc

/-- `CaseStmt::getSourceRange`: from the case/default keyword to the end
of the body.  The C++ code dereferences the body pointer
(`getBody()->getEndLoc()`); the dereference is modelled by the
environment function `endLocOf` mapping a statement reference to that
statement's computed end location. -/
def CaseStmt.getSourceRange (endLocOf : StmtRef → SourceLoc) (c : CaseStmt) : SourceRange :=
  { Start := c.getLoc, End := endLocOf c.getBody }

/-- `CaseStmt::isDefault`: derived from the first label item
(`getCaseLabelItems()[0].isDefault()`).  An empty item sequence is a
construction-contract violation; the `[]` branch is unreachable under
that contract. -/
def CaseStmt.isDefault (c : CaseStmt) : Bool :=
  match c.getCaseLabelItems with
  | i :: _ => i.isDefault
  | [] => false

/-- `CaseStmt::classof`. -/
def CaseStmt.classof (s : StmtBase) : Bool :=
  decide (s.getKind = StmtKind.Case)

/-- `SwitchStmt`: a switch; the case-clause pointers live in trailing
storage (`cases`). -/
structure SwitchStmt where
  lbase : LabeledBase
  SwitchLoc : SourceLoc
  LBraceLoc : SourceLoc
  RBraceLoc : SourceLoc
  SubjectExpr : ExprRef
  CaseCount : Nat
  cases : List CaseRef
deriving DecidableEq

/-- Modelled from the spec: `SwitchStmt::create` (its body lives in
`Stmt.cpp`, which is not under `src/`).  Per the construction contract it
allocates header plus trailing storage in one block, in-place constructs
each supplied case-clause reference into the trailing region in source
order, and records the count; the private constructor in the header takes
the count and derives the implicit flag from the switch keyword
location. -/
def SwitchStmt.create (labelInfo : LabeledStmtInfo) (switchLoc : SourceLoc)
    (subjectExpr : ExprRef) (lbraceLoc : SourceLoc) (caseList : List CaseRef)
    (rbraceLoc : SourceLoc) (implicit : Option Bool) : SwitchStmt :=
  { lbase := LabeledBase.ctor StmtKind.Switch
      (getDefaultImplicitFlag implicit switchLoc) labelInfo
    SwitchLoc := switchLoc
    LBraceLoc := lbraceLoc
    RBraceLoc := rbraceLoc
    SubjectExpr := subjectExpr
    CaseCount := caseList.length
    cases := caseList }

/-- `SwitchStmt::getCases`: the `CaseCount` entries of the trailing
storage. -/
def SwitchStmt.getCases (s : SwitchStmt) : List CaseRef :=
  s.cases.take s.CaseCount

/-- `SwitchStmt::setSubjectExpr`. -/
def SwitchStmt.setSubjectExpr (s : SwitchStmt) (e : ExprRef) : SwitchStmt :=
  { s with SubjectExpr := e }

/-- inherited `LabeledStmt::setLabelInfo` on a `SwitchStmt`. -/
def SwitchStmt.setLabelInfo (s : SwitchStmt) (i : LabeledStmtInfo) : SwitchStmt :=
  { s with lbase := s.lbase.setLabelInfo i }

/-- `BreakStmt`: break with an optional textual target name; `Target` is
the loop or switch being exited, wired up later by the semantic pass. -/
structure BreakStmt where
  base : StmtBase
  Loc : SourceLoc
  TargetName : Identifier
  TargetLoc : SourceLoc
  Target : Option LabeledRef
deriving DecidableEq

/-- The constructor `BreakStmt(SourceLoc, Identifier, SourceLoc,
Optional<bool>)`.  The C++ constructor initializes `Loc`, `TargetName`
and `TargetLoc` but does not initialize the `Target` member; `junk`
models the indeterminate prior contents of that memory (any pointer
value, including null). -/
def BreakStmt.ctor (loc : SourceLoc) (targetName : Identifier)
    (targetLoc : SourceLoc) (implicit : Option Bool)
    (junk : Option LabeledRef) : BreakStmt :=
  { base := mkStmtBase StmtKind.Break (getDefaultImplicitFlag implicit loc)
    Loc := loc
    TargetName := targetName
    TargetLoc := targetLoc
    Target := junk }

/-- `BreakStmt::getTargetName`. -/
def BreakStmt.getTargetName (b : BreakStmt) : Identifier := b.TargetName

/-- `BreakStmt::setTargetName`. -/
def BreakStmt.setTargetName (b : BreakStmt) (n : Identifier) : BreakStmt :=
  { b with TargetName := n }

/-- `BreakStmt::setTargetLoc`. -/
def BreakStmt.setTargetLoc (b : BreakStmt) (l : SourceLoc) : BreakStmt :=
  { b with TargetLoc := l }

/-- `BreakStmt::setTarget`: a plain unchecked assignment (the C++ body is
`Target = LS;`, with no assertion). -/
def BreakStmt.setTarget (b : BreakStmt) (ls : LabeledRef) : BreakStmt :=
  { b with Target := some ls }

/-- `BreakStmt::getTarget`: a plain unchecked read of the `Target`
member (no assertion). -/
def BreakStmt.getTarget (b : BreakStmt) : Option LabeledRef := b.Target

/-- `BreakStmt::getSourceRange`. -/
def BreakStmt.getSourceRange (b : BreakStmt) : SourceRange :=
  { Start := b.Loc, End := if b.TargetLoc.isValid then b.TargetLoc else b.Loc }

/-- `BreakStmt::classof`. -/
def BreakStmt.classof (s : StmtBase) : Bool :=
  decide (s.getKind = StmtKind.Break)

/-- `ContinueStmt`: continue with an optional textual target name;
`Target` is the loop being continued, wired up later by the semantic
pass. -/
structure ContinueStmt where
  base : StmtBase
  Loc : SourceLoc
  TargetName : Identifier
  TargetLoc : SourceLoc
  Target : Option LabeledRef
deriving DecidableEq

/-- The constructor `ContinueStmt(SourceLoc, Identifier, SourceLoc,
Optional<bool>)`.  As with `BreakStmt`, the `Target` member is left
uninitialized by the C++ constructor; `junk` models its indeterminate
prior contents. -/
def ContinueStmt.ctor (loc : SourceLoc) (targetName : Identifier)
    (targetLoc : SourceLoc) (implicit : Option Bool)
    (junk : Option LabeledRef) : ContinueStmt :=
  { base := mkStmtBase StmtKind.Continue (getDefaultImplicitFlag implicit loc)
    Loc := loc
    TargetName := targetName
    TargetLoc := targetLoc
    Target := junk }

/-- `ContinueStmt::getTargetName`. -/
def ContinueStmt.getTargetName (c : ContinueStmt) : Identifier := c.TargetName

/-- `ContinueStmt::setTargetName`. -/
def ContinueStmt.setTargetName (c : ContinueStmt) (n : Identifier) : ContinueStmt :=
  { c with TargetName := n }

/-- `ContinueStmt::setTargetLoc`. -/
def ContinueStmt.setTargetLoc (c : ContinueStmt) (l : SourceLoc) : ContinueStmt :=
  { c with TargetLoc := l }

/-- `ContinueStmt::setTarget`: a plain unchecked assignment (no
assertion). -/
def ContinueStmt.setTarget (c : ContinueStmt) (ls : LabeledRef) : ContinueStmt :=
  { c with Target := some ls }

/-- `ContinueStmt::getTarget`: a plain unchecked read (no assertion). -/
def ContinueStmt.getTarget (c : ContinueStmt) : Option LabeledRef := c.Target

/-- `ContinueStmt::getSourceRange`. -/
def ContinueStmt.getSourceRange (c : ContinueStmt) : SourceRange :=
  { Start := c.Loc, End := if c.TargetLoc.isValid then c.TargetLoc else c.Loc }

/-- `ContinueStmt::classof`. -/
def ContinueStmt.classof (s : StmtBase) : Bool :=
  decide (s.getKind = StmtKind.Continue)

/-- `FallthroughStmt`: the fallthrough keyword; `FallthroughDest` is the
next case clause, set during the semantic pass, and is initialized to
null by the constructor. -/
structure FallthroughStmt where
  base : StmtBase
  Loc : SourceLoc
  FallthroughDest : Option CaseRef
deriving DecidableEq

/-- The constructor `FallthroughStmt(SourceLoc, Optional<bool>)`; the
destination starts as an explicit null (`FallthroughDest(nullptr)`). -/
def FallthroughStmt.ctor (loc : SourceLoc) (implicit : Option Bool) : FallthroughStmt :=
  { base := mkStmtBase StmtKind.Fallthrough (getDefaultImplicitFlag implicit loc)
    Loc := loc
    FallthroughDest := none }

/-- `FallthroughStmt::getFallthroughDest`: asserts that the destination
has been set (reading before resolution is a fatal contract
violation). -/
def FallthroughStmt.getFallthroughDest (f : FallthroughStmt) :
    Except ContractViolation CaseRef :=
  match f.FallthroughDest with
  | some c => Except.ok c
  | none => Except.error { msg := "fallthrough dest is not set until Sema" }

/-- `FallthroughStmt::setFallthroughDest`: asserts that the destination
has not been set yet (a second resolution call is a fatal contract
violation). -/
def FallthroughStmt.setFallthroughDest (f : FallthroughStmt) (c : CaseRef) :
    Except ContractViolation FallthroughStmt :=
  match f.FallthroughDest with
  | none => Except.ok { f with FallthroughDest := some c }
  | some _ => Except.error { msg := "fallthrough dest already set" }

/-- `FallthroughStmt::getSourceRange`: a `SourceRange` built from the
single keyword location (start and end coincide). -/
def FallthroughStmt.getSourceRange (f : FallthroughStmt) : SourceRange :=
  { Start := f.Loc, End := f.Loc }

/-- `FallthroughStmt::classof`. -/
def FallthroughStmt.classof (s : StmtBase) : Bool :=
  decide (s.getKind = StmtKind.Fallthrough)

/-- Modelled from the spec: `ReturnStmt::getSourceRange` (declared in the
header, defined in `Stmt.cpp`, which is not under `src/`).  The range is
the outermost extent of the constituent sub-locations: it starts at the
return keyword and ends at the result expression's end when a result is
present, else at the keyword.  The dereference of the result pointer is
modelled by the environment function `exprEndLocOf`. -/
def ReturnStmt.getSourceRange (exprEndLocOf : ExprRef → SourceLoc)
    (r : ReturnStmt) : SourceRange :=
  { Start := r.ReturnLoc
    End :=
      match r.Result with
      | some e => exprEndLocOf e
      | none => r.ReturnLoc }

/-- Modelled from the spec: `IfStmt::getSourceRange` (declared in the
header, defined in `Stmt.cpp`, which is not under `src/`).  Per the
spec's example, an `if` with an else branch ends at the else branch's
end; without one, at the then-branch's end; it starts at the `if`
keyword. -/
def IfStmt.getSourceRange (endLocOf : StmtRef → SourceLoc)
    (i : IfStmt) : SourceRange :=
  { Start := i.IfLoc
    End :=
      match i.Else with
      | some e => endLocOf e
      | none => endLocOf i.Then }

/-- Modelled from the spec: `IfConfigStmt::getSourceRange` (declared in
the header, defined in `Stmt.cpp`, which is not under `src/`).  The
outermost extent of the stored sub-locations runs from the opening
directive's location to the stored end-directive location `EndLoc`. -/
def IfConfigStmt.getSourceRange (i : IfConfigStmt) : SourceRange :=
  { Start := i.IfLoc, End := i.EndLoc }

/-- Modelled from the spec: `WhileStmt::getSourceRange` (declared in the
header, defined in `Stmt.cpp`, which is not under `src/`).  A labeled
statement's extent starts at its label when present, else at its keyword
(the header supplies `getLabelLocOrKeywordLoc` for exactly this), and a
while loop ends at its body's end. -/
def WhileStmt.getSourceRange (endLocOf : StmtRef → SourceLoc)
    (w : WhileStmt) : SourceRange :=
  { Start := w.lbase.getLabelLocOrKeywordLoc w.WhileLoc
    End := endLocOf w.Body }

/-- Modelled from the spec: `DoWhileStmt::getSourceRange` (declared in
the header, defined in `Stmt.cpp`, which is not under `src/`).  The
extent starts at the label or the `do` keyword and ends at the trailing
condition expression's end (the condition is the last constituent of
`do ... while cond`). -/
def DoWhileStmt.getSourceRange (exprEndLocOf : ExprRef → SourceLoc)
    (d : DoWhileStmt) : SourceRange :=
  { Start := d.lbase.getLabelLocOrKeywordLoc d.DoLoc
    End := exprEndLocOf d.Cond }

/-- Modelled from the spec: `ForStmt::getSourceRange` (declared in the
header, defined in `Stmt.cpp`, which is not under `src/`).  The extent
starts at the label or the `for` keyword and ends at the body's end (the
body is the last constituent; the three clause parts all precede it). -/
def ForStmt.getSourceRange (endLocOf : StmtRef → SourceLoc)
    (f : ForStmt) : SourceRange :=
  { Start := f.lbase.getLabelLocOrKeywordLoc f.ForLoc
    End := endLocOf f.Body }

/-- Modelled from the spec: `ForEachStmt::getSourceRange` (declared in
the header, defined in `Stmt.cpp`, which is not under `src/`).  The
extent starts at the label or the `for` keyword and ends at the body's
end; the body is a brace statement, so its dereference is modelled by
the environment function `braceEndLocOf`. -/
def ForEachStmt.getSourceRange (braceEndLocOf : BraceRef → SourceLoc)
    (f : ForEachStmt) : SourceRange :=
  { Start := f.lbase.getLabelLocOrKeywordLoc f.ForLoc
    End := braceEndLocOf f.Body }

/-- Modelled from the spec: `SwitchStmt::getSourceRange` (declared in
the header, defined in `Stmt.cpp`, which is not under `src/`).  The
extent starts at the label or the `switch` keyword and ends at the
stored closing-brace location. -/
def SwitchStmt.getSourceRange (s : SwitchStmt) : SourceRange :=
  { Start := s.lbase.getLabelLocOrKeywordLoc s.SwitchLoc
    End := s.RBraceLoc }

/-- A concrete freshly constructed fallthrough statement. -/
def c1fall : FallthroughStmt := FallthroughStmt.ctor { pos := some 3 } none

/-- A concrete freshly constructed break statement (uninitialized target
memory happens to hold null). -/
def c1brk : BreakStmt :=
  BreakStmt.ctor { pos := some 0 } { str := "" } { pos := none } none none

/-- A concrete freshly constructed continue statement (uninitialized
target memory happens to hold null). -/
def c1cont : ContinueStmt :=
  ContinueStmt.ctor { pos := some 1 } { str := "" } { pos := none } none none

/-- A concrete block with ordered braces. -/
def c6brace : BraceStmt :=
  BraceStmt.create { pos := some 0 } [] { pos := some 5 } none

/-- A concrete end-location environment for statement references. -/
def c6endLocOf : StmtRef → SourceLoc := fun _ => { pos := some 9 }

/-- A concrete case clause with one label item. -/
def c6case : CaseStmt :=
  CaseStmt.create { pos := some 1 }
    [CaseLabelItem.ctor false { id := 0 } { pos := none } none]
    false { pos := some 2 } { id := 3 } none

/-- A concrete break statement without a target name. -/
def c6brk : BreakStmt :=
  BreakStmt.ctor { pos := some 2 } { str := "" } { pos := none } none none

/-- A concrete continue statement without a target name. -/
def c6cont : ContinueStmt :=
  ContinueStmt.ctor { pos := some 3 } { str := "" } { pos := none } none none

/-- A concrete fallthrough statement at a valid location. -/
def c6fall : FallthroughStmt := FallthroughStmt.ctor { pos := some 4 } none

/-- A concrete end-location environment for expression references. -/
def c6exprEnd : ExprRef → SourceLoc := fun _ => { pos := some 8 }

/-- A concrete end-location environment for brace references. -/
def c6braceEnd : BraceRef → SourceLoc := fun _ => { pos := some 9 }

/-- A concrete absent label (empty name). -/
def c6label0 : LabeledStmtInfo :=
  { Name := { str := "" }, Loc := { pos := none } }

/-- A concrete return statement with no result. -/
def c6ret0 : ReturnStmt := ReturnStmt.ctor { pos := some 1 } none none

/-- A concrete return statement with a result expression. -/
def c6ret2 : ReturnStmt :=
  ReturnStmt.ctor { pos := some 1 } (some { id := 0 }) none

/-- A concrete if statement without an else branch. -/
def c6if1 : IfStmt :=
  IfStmt.ctor { pos := some 1 } (StmtCondition.expr { id := 0 }) { id := 1 }
    { pos := none } none none

/-- A concrete if statement with an else branch. -/
def c6if2 : IfStmt :=
  IfStmt.ctor { pos := some 1 } (StmtCondition.expr { id := 0 }) { id := 1 }
    { pos := some 4 } (some { id := 2 }) none

/-- A concrete conditional-compilation statement. -/
def c6ifc : IfConfigStmt :=
  IfConfigStmt.ctor true { pos := some 1 } none none { pos := none } none
    { pos := some 7 }

/-- A concrete unlabeled while loop. -/
def c6while : WhileStmt :=
  WhileStmt.ctor c6label0 { pos := some 1 } (StmtCondition.expr { id := 0 })
    { id := 1 } none

/-- A concrete unlabeled do-while loop. -/
def c6dowhile : DoWhileStmt :=
  DoWhileStmt.ctor c6label0 { pos := some 1 } { id := 0 } { pos := some 5 }
    { id := 1 } none

/-- A concrete unlabeled for loop with all clause parts absent. -/
def c6for : ForStmt :=
  ForStmt.ctor c6label0 { pos := some 1 } none [] { pos := some 2 } none
    { pos := some 3 } none { id := 1 } none

/-- A concrete unlabeled for-each loop. -/
def c6foreach : ForEachStmt :=
  ForEachStmt.ctor c6label0 { pos := some 1 } { id := 0 } { pos := some 2 }
    { id := 0 } { id := 0 } none

/-- A concrete unlabeled switch with no cases. -/
def c6switch : SwitchStmt :=
  SwitchStmt.create c6label0 { pos := some 1 } { id := 0 } { pos := some 2 }
    [] { pos := some 6 } none

/-- Helper: the source-buffer order is reflexive at every valid
location. -/
theorem SourceLoc.leB_refl_of_isValid (l : SourceLoc) (h : l.isValid = true) :
    SourceLoc.leB l l = true := by
  obtain ⟨p⟩ := l
  cases p with
  | none => simp [SourceLoc.isValid] at h
  | some x => simp [SourceLoc.leB]

/-- C1 (amended): for a fallthrough statement the branch target behaves
as a two-state value: a query before resolution is a fatal contract
violation, after one resolution call with reference `c` the getter
returns exactly `c`, and a second resolution call is a fatal contract
violation.  For break and continue statements, after one call to the
resolution setter with reference `r` the getter returns exactly `r` (the
setter and getter themselves are unchecked plain accessors). -/
theorem C1_branch_target_protocol (f : FallthroughStmt)
    (hf : f.FallthroughDest = none) (c c2 : CaseRef)
    (b : BreakStmt) (k : ContinueStmt) (r r2 : LabeledRef) :
    f.getFallthroughDest
        = Except.error { msg := "fallthrough dest is not set until Sema" } ∧
    f.setFallthroughDest c = Except.ok { f with FallthroughDest := some c } ∧
    FallthroughStmt.getFallthroughDest { f with FallthroughDest := some c }
        = Except.ok c ∧
    FallthroughStmt.setFallthroughDest { f with FallthroughDest := some c } c2
        = Except.error { msg := "fallthrough dest already set" } ∧
    (b.setTarget r).getTarget = some r ∧
    (k.setTarget r2).getTarget = some r2 := by
  refine ⟨?_, ?_, rfl, rfl, rfl, rfl⟩
  · simp [FallthroughStmt.getFallthroughDest, hf]
  · simp [FallthroughStmt.setFallthroughDest, hf]

/-- C1 witness: the amended protocol at concrete inputs. -/
theorem C1_witness :
    c1fall.FallthroughDest = none ∧
    (c1fall.getFallthroughDest
        = Except.error { msg := "fallthrough dest is not set until Sema" } ∧
     c1fall.setFallthroughDest { id := 4 }
        = Except.ok { c1fall with FallthroughDest := some { id := 4 } } ∧
     FallthroughStmt.getFallthroughDest
        { c1fall with FallthroughDest := some { id := 4 } }
        = Except.ok { id := 4 } ∧
     FallthroughStmt.setFallthroughDest
        { c1fall with FallthroughDest := some { id := 4 } } { id := 5 }
        = Except.error { msg := "fallthrough dest already set" } ∧
     (c1brk.setTarget { id := 6 }).getTarget = some { id := 6 } ∧
     (c1cont.setTarget { id := 7 }).getTarget = some { id := 7 }) :=
  ⟨rfl, C1_branch_target_protocol c1fall rfl { id := 4 } { id := 5 }
    c1brk c1cont { id := 6 } { id := 7 }⟩

/-- C1 counterexample: for a break statement the claimed two-state
protocol fails on the code.  A second call to `setTarget` is not
rejected: it simply overwrites the target (the result is a well-defined
node whose getter returns the second reference).  And a query before any
resolution call does not signal the unresolved state: `getTarget` returns
whatever the uninitialized `Target` memory held (here a non-null junk
reference), indistinguishable from a resolved target. -/
theorem C1_break_not_two_state :
    (((BreakStmt.ctor { pos := some 0 } { str := "" } { pos := none } none
          (some { id := 5 })).setTarget { id := 1 }).setTarget
        { id := 2 }).getTarget = some { id := 2 } ∧
    (BreakStmt.ctor { pos := some 0 } { str := "" } { pos := none } none
        (some { id := 5 })).getTarget = some { id := 5 } := by
  constructor
  · rfl
  · rfl

/-- C2: evaluation at the failing input.  A freshly constructed break or
continue statement's observable target is whatever the uninitialized
`Target` memory held (two different junk contents give two different
observations), not a well-defined null/absent value; by contrast a fresh
fallthrough statement's destination is a well-defined null. -/
theorem C2_fresh_target_indeterminate :
    (BreakStmt.ctor { pos := some 0 } { str := "" } { pos := none } none
        (some { id := 7 })).getTarget = some { id := 7 } ∧
    (BreakStmt.ctor { pos := some 0 } { str := "" } { pos := none } none
        none).getTarget = none ∧
    (ContinueStmt.ctor { pos := some 0 } { str := "" } { pos := none } none
        (some { id := 9 })).getTarget = some { id := 9 } ∧
    (ContinueStmt.ctor { pos := some 0 } { str := "" } { pos := none } none
        none).getTarget = none ∧
    (FallthroughStmt.ctor { pos := some 0 } none).FallthroughDest = none := by
  refine ⟨rfl, rfl, rfl, rfl, rfl⟩

/-- C3: for every container node constructed from an ordered child
sequence, the reported child count equals the count supplied at
construction, and reading the children back yields exactly the supplied
entries, in the original order, with identical identities (the very same
references). -/
theorem C3_container_roundtrip (lb rb : SourceLoc) (es : List ASTNode)
    (imp imp2 imp3 : Option Bool) (li : LabeledStmtInfo)
    (sl lbl rbl : SourceLoc) (subj : ExprRef) (cs : List CaseRef)
    (cl col : SourceLoc) (its : List CaseLabelItem) (hb : Bool)
    (body : StmtRef) :
    (BraceStmt.create lb es rb imp).NumElements = es.length ∧
    (BraceStmt.create lb es rb imp).getElements = es ∧
    (SwitchStmt.create li sl subj lbl cs rbl imp2).CaseCount = cs.length ∧
    (SwitchStmt.create li sl subj lbl cs rbl imp2).getCases = cs ∧
    (CaseStmt.create cl its hb col body imp3).NumPatterns = its.length ∧
    (CaseStmt.create cl its hb col body imp3).getCaseLabelItems = its := by
  refine ⟨rfl, ?_, rfl, ?_, rfl, ?_⟩ <;>
    simp [BraceStmt.create, BraceStmt.getElements, SwitchStmt.create,
      SwitchStmt.getCases, CaseStmt.create, CaseStmt.getCaseLabelItems]

/-- C4: for every case clause with at least one label item, `isDefault`
returns exactly the first label item's default flag, independent of the
default flags of all subsequent items (it is derived from the first item,
not stored separately). -/
theorem C4_isDefault_is_first_item (cl col : SourceLoc) (i : CaseLabelItem)
    (rest rest2 : List CaseLabelItem) (hb : Bool) (body : StmtRef)
    (imp : Option Bool) :
    (CaseStmt.create cl (i :: rest) hb col body imp).isDefault
        = i.isDefault ∧
    (CaseStmt.create cl (i :: rest) hb col body imp).isDefault
        = (CaseStmt.create cl (i :: rest2) hb col body imp).isDefault := by
  have h : ∀ r : List CaseLabelItem,
      (CaseStmt.create cl (i :: r) hb col body imp).isDefault = i.isDefault := by
    intro r
    simp [CaseStmt.create, CaseStmt.isDefault, CaseStmt.getCaseLabelItems]
  exact ⟨h rest, (h rest).trans (h rest2).symm⟩

/-- C5: the label-bearing test is a two-comparison range check on the
kind tag and returns true exactly for the loop and switch variants
(while, do-while, for, for-each, switch) and false for every other
variant. -/
theorem C5_labeled_classof_range (s : StmtBase) :
    LabeledStmt.classof s = true ↔
      (s.getKind = StmtKind.While ∨ s.getKind = StmtKind.DoWhile ∨
       s.getKind = StmtKind.For ∨ s.getKind = StmtKind.ForEach ∨
       s.getKind = StmtKind.Switch) := by
  obtain ⟨k, i⟩ := s
  cases k <;>
    simp [LabeledStmt.classof, StmtBase.getKind, StmtKind.toTag,
      StmtKind.firstLabeledTag, StmtKind.lastLabeledTag]

/-- C6: each node's source range is the outermost extent of its
constituent sub-locations and satisfies end ≥ start, for every statement
variant: a block ranges over its braces; a case clause runs from its
case/default keyword to the end of its body; a break/continue without a
target name (empty name, invalid target location) ends at the keyword
itself, as does a fallthrough; a return ends at its result when present
and at the keyword otherwise; an if with an else branch ends at the else
branch's end and without one at the then-branch's end; a
conditional-compilation block ends at its end directive; the loops end
at their bodies (do-while at its trailing condition) and a switch at its
closing brace, each starting at its label when present, else at its
keyword. -/
theorem C6_source_range_extent
    (endLocOf : StmtRef → SourceLoc) (exprEndLocOf : ExprRef → SourceLoc)
    (braceEndLocOf : BraceRef → SourceLoc)
    (b : BraceStmt) (hb : SourceLoc.leB b.LBLoc b.RBLoc = true)
    (c : CaseStmt)
    (hc : SourceLoc.leB c.CaseLoc (endLocOf c.Body) = true)
    (bk : BreakStmt) (hbk1 : bk.TargetName.empty = true)
    (hbk2 : bk.TargetLoc.isValid = false) (hbk3 : bk.Loc.isValid = true)
    (cn : ContinueStmt) (hcn1 : cn.TargetName.empty = true)
    (hcn2 : cn.TargetLoc.isValid = false) (hcn3 : cn.Loc.isValid = true)
    (f : FallthroughStmt) (hf : f.Loc.isValid = true)
    (ret : ReturnStmt) (hret0 : ret.Result = none)
    (hretv : ret.ReturnLoc.isValid = true)
    (ret2 : ReturnStmt) (re : ExprRef) (hret2 : ret2.Result = some re)
    (hret2o : SourceLoc.leB ret2.ReturnLoc (exprEndLocOf re) = true)
    (i1 : IfStmt) (hi1 : i1.Else = none)
    (hi1o : SourceLoc.leB i1.IfLoc (endLocOf i1.Then) = true)
    (i2 : IfStmt) (ie : StmtRef) (hi2 : i2.Else = some ie)
    (hi2o : SourceLoc.leB i2.IfLoc (endLocOf ie) = true)
    (ic : IfConfigStmt) (hic : SourceLoc.leB ic.IfLoc ic.EndLoc = true)
    (w : WhileStmt)
    (hw : SourceLoc.leB (w.lbase.getLabelLocOrKeywordLoc w.WhileLoc)
        (endLocOf w.Body) = true)
    (dw : DoWhileStmt)
    (hdw : SourceLoc.leB (dw.lbase.getLabelLocOrKeywordLoc dw.DoLoc)
        (exprEndLocOf dw.Cond) = true)
    (fo : ForStmt)
    (hfo : SourceLoc.leB (fo.lbase.getLabelLocOrKeywordLoc fo.ForLoc)
        (endLocOf fo.Body) = true)
    (fe : ForEachStmt)
    (hfe : SourceLoc.leB (fe.lbase.getLabelLocOrKeywordLoc fe.ForLoc)
        (braceEndLocOf fe.Body) = true)
    (sw : SwitchStmt)
    (hsw : SourceLoc.leB (sw.lbase.getLabelLocOrKeywordLoc sw.SwitchLoc)
        sw.RBraceLoc = true) :
    b.getSourceRange = { Start := b.LBLoc, End := b.RBLoc } ∧
    SourceLoc.leB b.getSourceRange.Start b.getSourceRange.End = true ∧
    c.getSourceRange endLocOf
        = { Start := c.CaseLoc, End := endLocOf c.Body } ∧
    SourceLoc.leB (c.getSourceRange endLocOf).Start
        (c.getSourceRange endLocOf).End = true ∧
    bk.getSourceRange = { Start := bk.Loc, End := bk.Loc } ∧
    SourceLoc.leB bk.getSourceRange.Start bk.getSourceRange.End = true ∧
    cn.getSourceRange = { Start := cn.Loc, End := cn.Loc } ∧
    SourceLoc.leB cn.getSourceRange.Start cn.getSourceRange.End = true ∧
    f.getSourceRange = { Start := f.Loc, End := f.Loc } ∧
    SourceLoc.leB f.getSourceRange.Start f.getSourceRange.End = true ∧
    ret.getSourceRange exprEndLocOf
        = { Start := ret.ReturnLoc, End := ret.ReturnLoc } ∧
    SourceLoc.leB (ret.getSourceRange exprEndLocOf).Start
        (ret.getSourceRange exprEndLocOf).End = true ∧
    ret2.getSourceRange exprEndLocOf
        = { Start := ret2.ReturnLoc, End := exprEndLocOf re } ∧
    SourceLoc.leB (ret2.getSourceRange exprEndLocOf).Start
        (ret2.getSourceRange exprEndLocOf).End = true ∧
    i1.getSourceRange endLocOf
        = { Start := i1.IfLoc, End := endLocOf i1.Then } ∧
    SourceLoc.leB (i1.getSourceRange endLocOf).Start
        (i1.getSourceRange endLocOf).End = true ∧
    i2.getSourceRange endLocOf
        = { Start := i2.IfLoc, End := endLocOf ie } ∧
    SourceLoc.leB (i2.getSourceRange endLocOf).Start
        (i2.getSourceRange endLocOf).End = true ∧
    ic.getSourceRange = { Start := ic.IfLoc, End := ic.EndLoc } ∧
    SourceLoc.leB ic.getSourceRange.Start ic.getSourceRange.End = true ∧
    w.getSourceRange endLocOf
        = { Start := w.lbase.getLabelLocOrKeywordLoc w.WhileLoc,
            End := endLocOf w.Body } ∧
    SourceLoc.leB (w.getSourceRange endLocOf).Start
        (w.getSourceRange endLocOf).End = true ∧
    dw.getSourceRange exprEndLocOf
        = { Start := dw.lbase.getLabelLocOrKeywordLoc dw.DoLoc,
            End := exprEndLocOf dw.Cond } ∧
    SourceLoc.leB (dw.getSourceRange exprEndLocOf).Start
        (dw.getSourceRange exprEndLocOf).End = true ∧
    fo.getSourceRange endLocOf
        = { Start := fo.lbase.getLabelLocOrKeywordLoc fo.ForLoc,
            End := endLocOf fo.Body } ∧
    SourceLoc.leB (fo.getSourceRange endLocOf).Start
        (fo.getSourceRange endLocOf).End = true ∧
    fe.getSourceRange braceEndLocOf
        = { Start := fe.lbase.getLabelLocOrKeywordLoc fe.ForLoc,
            End := braceEndLocOf fe.Body } ∧
    SourceLoc.leB (fe.getSourceRange braceEndLocOf).Start
        (fe.getSourceRange braceEndLocOf).End = true ∧
    sw.getSourceRange
        = { Start := sw.lbase.getLabelLocOrKeywordLoc sw.SwitchLoc,
            End := sw.RBraceLoc } ∧
    SourceLoc.leB sw.getSourceRange.Start sw.getSourceRange.End = true := by
  have hbkr : bk.getSourceRange = { Start := bk.Loc, End := bk.Loc } := by
    simp [BreakStmt.getSourceRange, hbk2]
  have hcnr : cn.getSourceRange = { Start := cn.Loc, End := cn.Loc } := by
    simp [ContinueStmt.getSourceRange, hcn2]
  have hr0 : ret.getSourceRange exprEndLocOf
      = { Start := ret.ReturnLoc, End := ret.ReturnLoc } := by
    simp [ReturnStmt.getSourceRange, hret0]
  have hr2 : ret2.getSourceRange exprEndLocOf
      = { Start := ret2.ReturnLoc, End := exprEndLocOf re } := by
    simp [ReturnStmt.getSourceRange, hret2]
  have hif1 : i1.getSourceRange endLocOf
      = { Start := i1.IfLoc, End := endLocOf i1.Then } := by
    simp [IfStmt.getSourceRange, hi1]
  have hif2 : i2.getSourceRange endLocOf
      = { Start := i2.IfLoc, End := endLocOf ie } := by
    simp [IfStmt.getSourceRange, hi2]
  refine ⟨rfl, hb, rfl, hc, hbkr, ?_, hcnr, ?_, rfl, ?_,
    hr0, ?_, hr2, ?_, hif1, ?_, hif2, ?_, rfl, hic,
    rfl, hw, rfl, hdw, rfl, hfo, rfl, hfe, rfl, hsw⟩
  · rw [hbkr]
    exact SourceLoc.leB_refl_of_isValid bk.Loc hbk3
  · rw [hcnr]
    exact SourceLoc.leB_refl_of_isValid cn.Loc hcn3
  · exact SourceLoc.leB_refl_of_isValid f.Loc hf
  · rw [hr0]
    exact SourceLoc.leB_refl_of_isValid ret.ReturnLoc hretv
  · rw [hr2]
    exact hret2o
  · rw [hif1]
    exact hi1o
  · rw [hif2]
    exact hi2o

/-- C6 witness: the range property at concrete nodes of every statement
variant. -/
theorem C6_witness :
    (SourceLoc.leB c6brace.LBLoc c6brace.RBLoc = true ∧
     SourceLoc.leB c6case.CaseLoc (c6endLocOf c6case.Body) = true ∧
     c6brk.TargetName.empty = true ∧ c6brk.TargetLoc.isValid = false ∧
     c6brk.Loc.isValid = true ∧
     c6cont.TargetName.empty = true ∧ c6cont.TargetLoc.isValid = false ∧
     c6cont.Loc.isValid = true ∧
     c6fall.Loc.isValid = true ∧
     c6ret0.Result = none ∧ c6ret0.ReturnLoc.isValid = true ∧
     c6ret2.Result = some { id := 0 } ∧
     SourceLoc.leB c6ret2.ReturnLoc (c6exprEnd { id := 0 }) = true ∧
     c6if1.Else = none ∧
     SourceLoc.leB c6if1.IfLoc (c6endLocOf c6if1.Then) = true ∧
     c6if2.Else = some { id := 2 } ∧
     SourceLoc.leB c6if2.IfLoc (c6endLocOf { id := 2 }) = true ∧
     SourceLoc.leB c6ifc.IfLoc c6ifc.EndLoc = true ∧
     SourceLoc.leB (c6while.lbase.getLabelLocOrKeywordLoc c6while.WhileLoc)
        (c6endLocOf c6while.Body) = true ∧
     SourceLoc.leB (c6dowhile.lbase.getLabelLocOrKeywordLoc c6dowhile.DoLoc)
        (c6exprEnd c6dowhile.Cond) = true ∧
     SourceLoc.leB (c6for.lbase.getLabelLocOrKeywordLoc c6for.ForLoc)
        (c6endLocOf c6for.Body) = true ∧
     SourceLoc.leB (c6foreach.lbase.getLabelLocOrKeywordLoc c6foreach.ForLoc)
        (c6braceEnd c6foreach.Body) = true ∧
     SourceLoc.leB (c6switch.lbase.getLabelLocOrKeywordLoc c6switch.SwitchLoc)
        c6switch.RBraceLoc = true) ∧
    (c6brace.getSourceRange
        = { Start := c6brace.LBLoc, End := c6brace.RBLoc } ∧
     SourceLoc.leB c6brace.getSourceRange.Start
        c6brace.getSourceRange.End = true ∧
     c6case.getSourceRange c6endLocOf
        = { Start := c6case.CaseLoc, End := c6endLocOf c6case.Body } ∧
     SourceLoc.leB (c6case.getSourceRange c6endLocOf).Start
        (c6case.getSourceRange c6endLocOf).End = true ∧
     c6brk.getSourceRange = { Start := c6brk.Loc, End := c6brk.Loc } ∧
     SourceLoc.leB c6brk.getSourceRange.Start
        c6brk.getSourceRange.End = true ∧
     c6cont.getSourceRange = { Start := c6cont.Loc, End := c6cont.Loc } ∧
     SourceLoc.leB c6cont.getSourceRange.Start
        c6cont.getSourceRange.End = true ∧
     c6fall.getSourceRange = { Start := c6fall.Loc, End := c6fall.Loc } ∧
     SourceLoc.leB c6fall.getSourceRange.Start
        c6fall.getSourceRange.End = true ∧
     c6ret0.getSourceRange c6exprEnd
        = { Start := c6ret0.ReturnLoc, End := c6ret0.ReturnLoc } ∧
     SourceLoc.leB (c6ret0.getSourceRange c6exprEnd).Start
        (c6ret0.getSourceRange c6exprEnd).End = true ∧
     c6ret2.getSourceRange c6exprEnd
        = { Start := c6ret2.ReturnLoc, End := c6exprEnd { id := 0 } } ∧
     SourceLoc.leB (c6ret2.getSourceRange c6exprEnd).Start
        (c6ret2.getSourceRange c6exprEnd).End = true ∧
     c6if1.getSourceRange c6endLocOf
        = { Start := c6if1.IfLoc, End := c6endLocOf c6if1.Then } ∧
     SourceLoc.leB (c6if1.getSourceRange c6endLocOf).Start
        (c6if1.getSourceRange c6endLocOf).End = true ∧
     c6if2.getSourceRange c6endLocOf
        = { Start := c6if2.IfLoc, End := c6endLocOf { id := 2 } } ∧
     SourceLoc.leB (c6if2.getSourceRange c6endLocOf).Start
        (c6if2.getSourceRange c6endLocOf).End = true ∧
     c6ifc.getSourceRange = { Start := c6ifc.IfLoc, End := c6ifc.EndLoc } ∧
     SourceLoc.leB c6ifc.getSourceRange.Start
        c6ifc.getSourceRange.End = true ∧
     c6while.getSourceRange c6endLocOf
        = { Start := c6while.lbase.getLabelLocOrKeywordLoc c6while.WhileLoc,
            End := c6endLocOf c6while.Body } ∧
     SourceLoc.leB (c6while.getSourceRange c6endLocOf).Start
        (c6while.getSourceRange c6endLocOf).End = true ∧
     c6dowhile.getSourceRange c6exprEnd
        = { Start := c6dowhile.lbase.getLabelLocOrKeywordLoc c6dowhile.DoLoc,
            End := c6exprEnd c6dowhile.Cond } ∧
     SourceLoc.leB (c6dowhile.getSourceRange c6exprEnd).Start
        (c6dowhile.getSourceRange c6exprEnd).End = true ∧
     c6for.getSourceRange c6endLocOf
        = { Start := c6for.lbase.getLabelLocOrKeywordLoc c6for.ForLoc,
            End := c6endLocOf c6for.Body } ∧
     SourceLoc.leB (c6for.getSourceRange c6endLocOf).Start
        (c6for.getSourceRange c6endLocOf).End = true ∧
     c6foreach.getSourceRange c6braceEnd
        = { Start := c6foreach.lbase.getLabelLocOrKeywordLoc c6foreach.ForLoc,
            End := c6braceEnd c6foreach.Body } ∧
     SourceLoc.leB (c6foreach.getSourceRange c6braceEnd).Start
        (c6foreach.getSourceRange c6braceEnd).End = true ∧
     c6switch.getSourceRange
        = { Start := c6switch.lbase.getLabelLocOrKeywordLoc c6switch.SwitchLoc,
            End := c6switch.RBraceLoc } ∧
     SourceLoc.leB c6switch.getSourceRange.Start
        c6switch.getSourceRange.End = true) :=
  ⟨by decide,
   C6_source_range_extent c6endLocOf c6exprEnd c6braceEnd
     c6brace (by decide) c6case (by decide)
     c6brk (by decide) (by decide) (by decide)
     c6cont (by decide) (by decide) (by decide) c6fall (by decide)
     c6ret0 (by decide) (by decide)
     c6ret2 { id := 0 } (by decide) (by decide)
     c6if1 (by decide) (by decide)
     c6if2 { id := 2 } (by decide) (by decide)
     c6ifc (by decide)
     c6while (by decide) c6dowhile (by decide) c6for (by decide)
     c6foreach (by decide) c6switch (by decide)⟩

/-- C7 counterexample: mutation after construction is not limited to
child references, conditions and branch targets: the public interface
also changes a block's config flag (`markAsConfigBlock`), a break
statement's target name (`setTargetName`), and a while statement's label
info (`setLabelInfo`), each observably, at these concrete nodes. -/
theorem C7_observable_field_mutators :
    (BraceStmt.create { pos := some 0 } [] { pos := some 1 } none).isConfigBlock
        = false ∧
    ((BraceStmt.create { pos := some 0 } [] { pos := some 1 }
        none).markAsConfigBlock).isConfigBlock = true ∧
    (BreakStmt.ctor { pos := some 0 } { str := "" } { pos := none } none
        none).getTargetName = { str := "" } ∧
    ((BreakStmt.ctor { pos := some 0 } { str := "" } { pos := none } none
        none).setTargetName { str := "outer" }).getTargetName
        = { str := "outer" } ∧
    ((WhileStmt.ctor { Name := { str := "" }, Loc := { pos := none } }
        { pos := some 0 } (StmtCondition.expr { id := 0 }) { id := 1 }
        none).setLabelInfo
        { Name := { str := "outer" }, Loc := { pos := some 0 } }).lbase.getLabelInfo
        = { Name := { str := "outer" }, Loc := { pos := some 0 } } := by
  refine ⟨rfl, rfl, rfl, rfl, rfl⟩

/-- C7 (amended): besides child references, conditions and branch
targets, post-construction mutation also covers label info, break and
continue target names and locations, and the block config flags; but no
mutating operation on a container node changes its reported child count
or the contents of its trailing child storage (no structural resize). -/
theorem C7_no_structural_resize (b : BraceStmt) (c : CaseStmt)
    (s : SwitchStmt) (body : StmtRef) (e : ExprRef)
    (li : LabeledStmtInfo) :
    (b.markAsConfigBlock).NumElements = b.NumElements ∧
    (b.markAsConfigBlock).getElements = b.getElements ∧
    (b.markAsInactiveConfigBlock).NumElements = b.NumElements ∧
    (b.markAsInactiveConfigBlock).getElements = b.getElements ∧
    (c.setBody body).NumPatterns = c.NumPatterns ∧
    (c.setBody body).getCaseLabelItems = c.getCaseLabelItems ∧
    (s.setSubjectExpr e).CaseCount = s.CaseCount ∧
    (s.setSubjectExpr e).getCases = s.getCases ∧
    (s.setLabelInfo li).CaseCount = s.CaseCount ∧
    (s.setLabelInfo li).getCases = s.getCases := by
  refine ⟨rfl, rfl, rfl, rfl, rfl, rfl, rfl, rfl, rfl, rfl⟩

/-- C8: the kind tag observed through the kind accessor equals the kind
supplied at construction — stated for the base constructor and for every
variant constructor/factory — and every public mutation of the model
(children, conditions, labels, flags, names, locations, declaration
lists, generator fields, branch targets, including the success case of
the fallthrough resolution setter) leaves it unchanged; consequently
each category predicate keeps the same answer over a node's lifetime. -/
theorem C8_kind_immutable (k : StmtKind) (imp : Bool) (b : BraceStmt)
    (r : ReturnStmt) (e : ExprRef) (i : IfStmt) (st : StmtRef)
    (cond : StmtCondition) (w : WhileStmt) (li : LabeledStmtInfo)
    (fo : ForStmt) (oe : Option ExprRef) (fe : ForEachStmt)
    (g : PatternBindingDeclRef) (c : CaseStmt) (s : SwitchStmt)
    (bk : BreakStmt) (n : Identifier) (lr : LabeledRef) (cn : ContinueStmt)
    (f : FallthroughStmt) (cr : CaseRef)
    (loc tl : SourceLoc) (io : Option Bool) (j : Option LabeledRef)
    (ifc : IfConfigStmt) (ost : Option StmtRef) (dw : DoWhileStmt)
    (ivd : List DeclRef) (pt : PatternRef) (bb : BraceRef)
    (lb2 : LabeledBase) (es : List ASTNode) (its : List CaseLabelItem)
    (cs : List CaseRef) (hbd : Bool) (act : Bool) :
    (mkStmtBase k imp).getKind = k ∧
    (BraceStmt.create loc es tl io).base.getKind = StmtKind.Brace ∧
    (ReturnStmt.ctor loc oe io).base.getKind = StmtKind.Return ∧
    (IfStmt.ctor loc cond st tl ost io).base.getKind = StmtKind.If ∧
    (IfConfigStmt.ctor act loc oe ost tl ost loc).base.getKind
        = StmtKind.IfConfig ∧
    (WhileStmt.ctor li loc cond st io).lbase.base.getKind
        = StmtKind.While ∧
    (DoWhileStmt.ctor li loc e tl st io).lbase.base.getKind
        = StmtKind.DoWhile ∧
    (ForStmt.ctor li loc oe ivd tl oe loc oe st io).lbase.base.getKind
        = StmtKind.For ∧
    (ForEachStmt.ctor li loc pt tl e bb io).lbase.base.getKind
        = StmtKind.ForEach ∧
    (SwitchStmt.create li loc e tl cs loc io).lbase.base.getKind
        = StmtKind.Switch ∧
    (CaseStmt.create loc its hbd tl st io).base.getKind = StmtKind.Case ∧
    (BreakStmt.ctor loc n tl io j).base.getKind = StmtKind.Break ∧
    (ContinueStmt.ctor loc n tl io j).base.getKind = StmtKind.Continue ∧
    (FallthroughStmt.ctor loc io).base.getKind = StmtKind.Fallthrough ∧
    (b.markAsConfigBlock).base.getKind = b.base.getKind ∧
    (b.markAsInactiveConfigBlock).base.getKind = b.base.getKind ∧
    (r.setResult e).base.getKind = r.base.getKind ∧
    (i.setCond cond).base.getKind = i.base.getKind ∧
    (i.setThenStmt st).base.getKind = i.base.getKind ∧
    (i.setElseStmt ost).base.getKind = i.base.getKind ∧
    (ifc.setThenStmt ost).base.getKind = ifc.base.getKind ∧
    (ifc.setElseStmt ost).base.getKind = ifc.base.getKind ∧
    (ifc.setCond oe).base.getKind = ifc.base.getKind ∧
    (w.setCond cond).lbase.base.getKind = w.lbase.base.getKind ∧
    (w.setBody st).lbase.base.getKind = w.lbase.base.getKind ∧
    (w.setLabelInfo li).lbase.base.getKind = w.lbase.base.getKind ∧
    (dw.setBody st).lbase.base.getKind = dw.lbase.base.getKind ∧
    (dw.setCond e).lbase.base.getKind = dw.lbase.base.getKind ∧
    (fo.setInitializer e).lbase.base.getKind = fo.lbase.base.getKind ∧
    (fo.setInitializerVarDecls ivd).lbase.base.getKind
        = fo.lbase.base.getKind ∧
    (fo.setCond oe).lbase.base.getKind = fo.lbase.base.getKind ∧
    (fo.setIncrement e).lbase.base.getKind = fo.lbase.base.getKind ∧
    (fo.setBody st).lbase.base.getKind = fo.lbase.base.getKind ∧
    (fe.setPattern pt).lbase.base.getKind = fe.lbase.base.getKind ∧
    (fe.setSequence e).lbase.base.getKind = fe.lbase.base.getKind ∧
    (fe.setGenerator g).lbase.base.getKind = fe.lbase.base.getKind ∧
    (fe.setGeneratorNext e).lbase.base.getKind = fe.lbase.base.getKind ∧
    (fe.setBody bb).lbase.base.getKind = fe.lbase.base.getKind ∧
    (c.setBody st).base.getKind = c.base.getKind ∧
    (s.setSubjectExpr e).lbase.base.getKind = s.lbase.base.getKind ∧
    (s.setLabelInfo li).lbase.base.getKind = s.lbase.base.getKind ∧
    (bk.setTargetName n).base.getKind = bk.base.getKind ∧
    (bk.setTargetLoc tl).base.getKind = bk.base.getKind ∧
    (bk.setTarget lr).base.getKind = bk.base.getKind ∧
    (cn.setTargetName n).base.getKind = cn.base.getKind ∧
    (cn.setTargetLoc tl).base.getKind = cn.base.getKind ∧
    (cn.setTarget lr).base.getKind = cn.base.getKind ∧
    (lb2.setLabelInfo li).base.getKind = lb2.base.getKind ∧
    LabeledStmt.classof ((w.setBody st).lbase.base)
        = LabeledStmt.classof w.lbase.base ∧
    BraceStmt.classof ((b.markAsConfigBlock).base)
        = BraceStmt.classof b.base ∧
    CaseStmt.classof ((c.setBody st).base) = CaseStmt.classof c.base ∧
    BreakStmt.classof ((bk.setTarget lr).base)
        = BreakStmt.classof bk.base ∧
    ContinueStmt.classof ((cn.setTarget lr).base)
        = ContinueStmt.classof cn.base ∧
    ((f.setFallthroughDest cr).map fun g2 => g2.base.getKind)
        = ((f.setFallthroughDest cr).map fun _ => f.base.getKind) := by
  have hmap : ((f.setFallthroughDest cr).map fun g2 => g2.base.getKind)
      = ((f.setFallthroughDest cr).map fun _ => f.base.getKind) := by
    cases hd : f.FallthroughDest <;>
      simp [FallthroughStmt.setFallthroughDest, hd, Except.map]
  repeat' apply And.intro
  all_goals first
    | exact hmap
    | rfl

/-- C9: a labeled statement's label info converts to true exactly when
its name is non-empty (an absent label is an empty name, not a null
entity: every labeled statement holds a `LabeledStmtInfo` value). -/
theorem C9_label_info_boolean (info : LabeledStmtInfo) (k : StmtKind)
    (imp : Bool) :
    (info.toBool = true ↔ info.Name.empty = false) ∧
    (LabeledBase.ctor k imp info).getLabelInfo = info := by
  refine ⟨?_, rfl⟩
  simp [LabeledStmtInfo.toBool]

/-- C10: for every statement variant whose constructor takes an optional
implicit flag, supplying the flag makes `isImplicit` return exactly that
value, and omitting it makes `isImplicit` return true exactly when the
variant's keyword source location is invalid. -/
theorem C10_default_implicit_flag (rl : SourceLoc) (res : Option ExprRef)
    (bv : Bool) (il el : SourceLoc) (cond : StmtCondition) (th : StmtRef)
    (els : Option StmtRef) (li : LabeledStmtInfo) (wl dl : SourceLoc)
    (bd : StmtRef) (ec : ExprRef) (fl s1 s2 : SourceLoc)
    (ini : Option ExprRef) (ivd : List DeclRef) (oc oi : Option ExprRef)
    (pt : PatternRef) (inl : SourceLoc) (sq : ExprRef) (bb : BraceRef)
    (swl lbl rbl : SourceLoc) (cs : List CaseRef)
    (lb rb : SourceLoc) (es : List ASTNode)
    (cl col : SourceLoc) (its : List CaseLabelItem) (hbd : Bool)
    (loc : SourceLoc) (nm : Identifier) (tl : SourceLoc)
    (j : Option LabeledRef) :
    (ReturnStmt.ctor rl res (some bv)).base.isImplicit = bv ∧
    (ReturnStmt.ctor rl res none).base.isImplicit = rl.isInvalid ∧
    (IfStmt.ctor il cond th el els (some bv)).base.isImplicit = bv ∧
    (IfStmt.ctor il cond th el els none).base.isImplicit = il.isInvalid ∧
    (WhileStmt.ctor li wl cond bd (some bv)).lbase.base.isImplicit = bv ∧
    (WhileStmt.ctor li wl cond bd none).lbase.base.isImplicit
        = wl.isInvalid ∧
    (DoWhileStmt.ctor li dl ec wl bd (some bv)).lbase.base.isImplicit = bv ∧
    (DoWhileStmt.ctor li dl ec wl bd none).lbase.base.isImplicit
        = dl.isInvalid ∧
    (ForStmt.ctor li fl ini ivd s1 oc s2 oi bd
        (some bv)).lbase.base.isImplicit = bv ∧
    (ForStmt.ctor li fl ini ivd s1 oc s2 oi bd
        none).lbase.base.isImplicit = fl.isInvalid ∧
    (ForEachStmt.ctor li fl pt inl sq bb (some bv)).lbase.base.isImplicit
        = bv ∧
    (ForEachStmt.ctor li fl pt inl sq bb none).lbase.base.isImplicit
        = fl.isInvalid ∧
    (SwitchStmt.create li swl ec lbl cs rbl
        (some bv)).lbase.base.isImplicit = bv ∧
    (SwitchStmt.create li swl ec lbl cs rbl
        none).lbase.base.isImplicit = swl.isInvalid ∧
    (BraceStmt.create lb es rb (some bv)).base.isImplicit = bv ∧
    (BraceStmt.create lb es rb none).base.isImplicit = lb.isInvalid ∧
    (CaseStmt.create cl its hbd col bd (some bv)).base.isImplicit = bv ∧
    (CaseStmt.create cl its hbd col bd none).base.isImplicit
        = cl.isInvalid ∧
    (BreakStmt.ctor loc nm tl (some bv) j).base.isImplicit = bv ∧
    (BreakStmt.ctor loc nm tl none j).base.isImplicit = loc.isInvalid ∧
    (ContinueStmt.ctor loc nm tl (some bv) j).base.isImplicit = bv ∧
    (ContinueStmt.ctor loc nm tl none j).base.isImplicit = loc.isInvalid ∧
    (FallthroughStmt.ctor loc (some bv)).base.isImplicit = bv ∧
    (FallthroughStmt.ctor loc none).base.isImplicit = loc.isInvalid := by
  repeat' apply And.intro
  all_goals rfl

end SwiftAST
